import Mathlib

/-!
Verification of the reference-resolution engine (data processor) and the
mock-server route handler of the pactum API-testing toolkit.

JSON-like trees are modelled as an inductive `Json`; object fields are
ordered association lists, as in JavaScript object literals.
-/

/-- JSON-like value tree: the data model of templates, maps and payloads. -/
inductive Json : Type where
  | null : Json
  | bool : Bool → Json
  | num : Int → Json
  | str : String → Json
  | arr : List Json → Json
  | obj : List (String × Json) → Json

/-- First-match association-list lookup, as JavaScript property access
on objects whose keys are unique. -/
def jlookup (fs : List (String × Json)) (k : String) : Option Json :=
  match fs with
  | [] => none
  | (k', v) :: rest => if k' = k then some v else jlookup rest k

example : jlookup [("a", Json.num 1), ("b", Json.null)] "b" = some Json.null := rfl

/-- Recognize the body after the `@DATA:MAP::` lead of a Map Reference. -/
def mapRefBody : List Char → Option (List Char)
  | '@' :: 'D' :: 'A' :: 'T' :: 'A' :: ':' :: 'M' :: 'A' :: 'P' :: ':' :: ':' :: rest => some rest
  | _ => none

/-- Modelled from the spec: the Map Reference marker is a string exactly
equal to `"@DATA:MAP::" + path + "@"`; no other characters permitted, no
partial/substring recognition (spec sections 3 and 6; the dataProcessor
source is absent from this snapshot, only its test suite is present).
Returns the `path` when `s` is exactly a marker, `none` otherwise. -/
def getMapRefPath (s : String) : Option String :=
  match mapRefBody s.toList with
  | some rest =>
    if rest ≠ [] ∧ rest.getLast? = some '@' then some (String.mk rest.dropLast) else none
  | none => none

example : getMapRefPath "@DATA:MAP::Users[0].Name@" = some "Users[0].Name" := by decide
example : getMapRefPath "Hello" = none := by decide
example : getMapRefPath "" = none := by decide
example : getMapRefPath "xx@DATA:MAP::a@yy" = none := by decide

/-! ## Path Resolver (spec section 4.1)

Modelled from the spec: `path := segment ('.' segment)*`,
`segment := identifier ('[' index_or_filter ']')?`,
`index_or_filter := integer | identifier '=' literal`.
The dataProcessor source is absent from this snapshot; the grammar and
evaluation rules below follow the spec's words and are checked against the
concrete expectations of the surviving test suite. -/

/-- One pre-parsed path instruction (spec section 9: field-access,
index-access, filter-access). -/
inductive PathStep : Type where
  | field : String → PathStep
  | index : Nat → PathStep
  | filter : String → String → PathStep
deriving DecidableEq

/-- Split a character list on a separator character. -/
def splitOnChar (c : Char) : List Char → List (List Char)
  | [] => [[]]
  | x :: xs =>
    match splitOnChar c xs with
    | [] => if x = c then [[], []] else [[x]]
    | y :: ys => if x = c then [] :: y :: ys else (x :: y) :: ys

example : splitOnChar '.' "a.bc.d".toList = ["a".toList, "bc".toList, "d".toList] := by decide

/-- Decimal value of a digit list. -/
def natOfDigits (cs : List Char) : Nat :=
  cs.foldl (fun a c => a * 10 + (c.toNat - '0'.toNat)) 0

example : natOfDigits "120".toList = 120 := by decide

/-- Modelled from the spec: parse one `segment` of the path grammar into
its instruction list — a field access for the identifier, followed by an
index access when the bracket holds an integer, or a filter access when it
holds `identifier '=' literal`. -/
def parseSegment (cs : List Char) : List PathStep :=
  let name := cs.takeWhile (fun c => c ≠ '[')
  match cs.dropWhile (fun c => c ≠ '[') with
  | [] => [PathStep.field (String.mk name)]
  | _ :: afterBracket =>
    let inner := afterBracket.takeWhile (fun c => c ≠ ']')
    if inner ≠ [] ∧ inner.all Char.isDigit then
      [PathStep.field (String.mk name), PathStep.index (natOfDigits inner)]
    else if inner.contains '=' then
      let k := inner.takeWhile (fun c => c ≠ '=')
      let v := (inner.dropWhile (fun c => c ≠ '=')).drop 1
      [PathStep.field (String.mk name), PathStep.filter (String.mk k) (String.mk v)]
    else
      [PathStep.field (String.mk name)]

/-- Modelled from the spec: pre-parse a whole dotted path into its
instruction list. -/
def parsePath (p : String) : List PathStep :=
  (splitOnChar '.' p.toList).flatMap parseSegment

example : parsePath "Defaults.Address[Type=Home]" =
    [PathStep.field "Defaults", PathStep.field "Address", PathStep.filter "Type" "Home"] := by
  decide

example : parsePath "Users[0].Name" =
    [PathStep.field "Users", PathStep.index 0, PathStep.field "Name"] := by decide

/-- Parse a character list as an optionally signed decimal integer. -/
def intOfChars (cs : List Char) : Option Int :=
  match cs with
  | '-' :: rest => if rest ≠ [] ∧ rest.all Char.isDigit then some (-(natOfDigits rest : Int)) else none
  | _ => if cs ≠ [] ∧ cs.all Char.isDigit then some (natOfDigits cs : Int) else none

/-- Modelled from the spec: string/loose equality between an element's
field value and the filter literal — a string compares by equality, a
number compares with the literal read as a decimal integer (JavaScript
`==` coercion between a number and a string). -/
def looseEq (v : Json) (lit : String) : Bool :=
  match v with
  | Json.str s => s = lit
  | Json.num n => intOfChars lit.toList = some n
  | _ => false

/-- Whether an array element satisfies the filter `[key=lit]`: it is a
keyed value whose field `key` equals `lit` under string/loose equality. -/
def matchesFilter (key lit : String) (e : Json) : Bool :=
  match e with
  | Json.obj fs =>
    match jlookup fs key with
    | some v => looseEq v lit
    | none => false
  | _ => false

/-- Modelled from the spec: the filter form scans the array for the FIRST
element whose field `key` equals `lit` and yields that element; `none`
("not found") when no element matches. -/
def filterFirst (key lit : String) : List Json → Option Json
  | [] => none
  | x :: xs => if matchesFilter key lit x then some x else filterFirst key lit xs

/-- Modelled from the spec: apply one path instruction to the current
value. A plain identifier looks up a field on the current keyed value
(missing/non-keyed gives "not found"); a bracketed integer indexes into an
array (out of range/non-array gives "not found"); a bracketed `key=value`
scans the array for the first matching element. -/
def applyStep (v : Json) : PathStep → Option Json
  | PathStep.field k =>
    match v with
    | Json.obj fs => jlookup fs k
    | _ => none
  | PathStep.index i =>
    match v with
    | Json.arr xs => xs.get? i
    | _ => none
  | PathStep.filter k lit =>
    match v with
    | Json.arr xs => filterFirst k lit xs
    | _ => none

/-- Apply the instruction list left to right from a root value; "not
found" propagates. -/
def resolveSteps (v : Json) : List PathStep → Option Json
  | [] => some v
  | s :: rest =>
    match applyStep v s with
    | some v' => resolveSteps v' rest
    | none => none

/-- Modelled from the spec: resolve a path against a store rooted at an
object; a result that is itself a Map Reference marker is resolved again
before being returned (chained indirection). `fuel` bounds the length of
the indirection chain (circular references are out of scope per the spec). -/
def resolvePath (fuel : Nat) (store : List (String × Json)) (p : String) : Option Json :=
  match fuel with
  | 0 => none
  | f + 1 =>
    match resolveSteps (Json.obj store) (parsePath p) with
    | some (Json.str s) =>
      match getMapRefPath s with
      | some p2 => resolvePath f store p2
      | none => some (Json.str s)
    | r => r

example : resolvePath 3 [("A", Json.str "@DATA:MAP::B@"), ("B", Json.num 1)] "A" =
    some (Json.num 1) := rfl

/-! ## Override Merge (spec section 4.2) -/

/-- Modelled from the spec: one-level field replace over keyed values —
a shallow copy of the base's fields in which every field present in the
overrides (including fields explicitly set to null) is overwritten with
the override's value taken as-is; fields of the overrides absent from the
base are appended in override order (JavaScript key-overwrite assignment). -/
def mergeFields (base ov : List (String × Json)) : List (String × Json) :=
  (base.map fun kv =>
    match jlookup ov kv.1 with
    | some w => (kv.1, w)
    | none => kv)
  ++ ov.filter (fun kv => (jlookup base kv.1).isNone)

/-- Modelled from the spec: element-wise index overwrite when both the
base and the overrides are ordered sequences (JavaScript treats array
indices as fields of the target). -/
def mergeArrays : List Json → List Json → List Json
  | bs, [] => bs
  | [], os => os
  | _ :: bs, o :: os => o :: mergeArrays bs os

/-- Modelled from the spec: `merge(resolved, overrides)` — if `overrides`
is absent, return `resolved` unchanged; otherwise overwrite one level of
fields (or indices) with the override values taken as-is; a non-keyed
override replaces the base wholesale. -/
def mergeOverrides (resolved : Json) (overrides : Option Json) : Json :=
  match overrides with
  | none => resolved
  | some o =>
    match resolved, o with
    | Json.obj bs, Json.obj os => Json.obj (mergeFields bs os)
    | Json.arr bs, Json.arr os => Json.arr (mergeArrays bs os)
    | _, _ => o

/-! ## Template Normalizer and Map Normalizer (spec sections 4.3 and 4.4)

Both normalizers deep-walk every entry of their raw store; `fuel` bounds
the resolution depth (the spec assumes reference chains are acyclic), and
the structural walk also consumes one unit per level, so any finite value
is fully walked with enough fuel. -/

/-- The name carried by a Template Reference marker: the value of the
field `"@DATA:TEMPLATE@"` when it is a string. -/
def getTemplateName (fs : List (String × Json)) : Option String :=
  match jlookup fs "@DATA:TEMPLATE@" with
  | some (Json.str n) => some n
  | _ => none

/-- Modelled from the spec (section 4.3): deep-walk a value, replacing
every Template Reference marker found anywhere within it — look up the
referenced name in the store; if present, resolve the target itself fully
(lazily/recursively, supporting forward and cross references), resolve
markers nested inside the marker's own `"@OVERRIDES@"` value first, then
apply Override Merge and splice the merged result in place of the marker.
If the referenced name is absent, leave the marker untouched. -/
def normTplValue : Nat → List (String × Json) → Json → Json
  | 0, _, v => v
  | f + 1, store, v =>
    match v with
    | Json.obj fs =>
      match getTemplateName fs with
      | some name =>
        match jlookup store name with
        | some target =>
          mergeOverrides (normTplValue f store target)
            ((jlookup fs "@OVERRIDES@").map (normTplValue f store))
        | none => v
      | none => Json.obj (fs.map fun kv => (kv.1, normTplValue f store kv.2))
    | Json.arr xs => Json.arr (xs.map (normTplValue f store))
    | _ => v

/-- Modelled from the spec (section 4.4): deep-walk a value, replacing
every string exactly matching the Map Reference pattern with the value the
Path Resolver yields from the store, itself normalized recursively (so
references resolve as against the normalized store under construction, and
chained indirection is followed). An unresolvable path leaves the string
unchanged. -/
def processMapValue : Nat → List (String × Json) → Json → Json
  | 0, _, v => v
  | f + 1, store, v =>
    match v with
    | Json.str s =>
      match getMapRefPath s with
      | some p =>
        match resolveSteps (Json.obj store) (parsePath p) with
        | some r => processMapValue f store r
        | none => Json.str s
      | none => Json.str s
    | Json.arr xs => Json.arr (xs.map (processMapValue f store))
    | Json.obj fs => Json.obj (fs.map fun kv => (kv.1, processMapValue f store kv.2))
    | _ => v

/-- Processing state of one store kind (spec section 3): the raw store as
loaded, the normalized store written by the normalizer, and the
`{enabled, processed}` flags. -/
structure DPState : Type where
  raw : List (String × Json)
  normalized : List (String × Json)
  enabled : Bool
  processed : Bool

/-- Modelled from the spec (section 4.3): `processTemplates` — a no-op if
`processed` is already true; otherwise rewrite the normalized store from
the raw store, set `processed := true`, and set `enabled` iff the raw
store is non-empty at run time. -/
def processTemplates (fuel : Nat) (s : DPState) : DPState :=
  if s.processed then s
  else
    { raw := s.raw
      normalized := s.raw.map fun kv => (kv.1, normTplValue fuel s.raw kv.2)
      enabled := !s.raw.isEmpty
      processed := true }

/-- Modelled from the spec (section 4.4): `processMaps` — same idempotence
and flag contract as `processTemplates`, resolving Map Reference strings
instead of Template Reference markers. -/
def processMaps (fuel : Nat) (s : DPState) : DPState :=
  if s.processed then s
  else
    { raw := s.raw
      normalized := s.raw.map fun kv => (kv.1, processMapValue fuel s.raw kv.2)
      enabled := !s.raw.isEmpty
      processed := true }

/-! ## Data Resolver (spec section 4.5) -/

/-- Modelled from the spec (section 4.5): `processData` walks an input
value and substitutes both marker kinds using the two normalized stores
`t` (templates) and `m` (maps). Scalars and null are returned unchanged,
except a string exactly matching the Map Reference pattern, which is
replaced by the Path Resolver's result (left unchanged when the path does
not resolve). A keyed structure carrying a Template Reference marker is
replaced wholesale: absent name — returned unchanged, marker included;
present — the stored value is merged with the recursively resolved
`"@OVERRIDES@"` value. Other containers are rebuilt with each child
recursively resolved. -/
def processData : Nat → List (String × Json) → List (String × Json) → Json → Json
  | 0, _, _, v => v
  | f + 1, t, m, v =>
    match v with
    | Json.str s =>
      match getMapRefPath s with
      | some p => (resolvePath (f + 1) m p).getD (Json.str s)
      | none => Json.str s
    | Json.obj fs =>
      match getTemplateName fs with
      | some name =>
        match jlookup t name with
        | some tpl =>
          mergeOverrides tpl ((jlookup fs "@OVERRIDES@").map (processData f t m))
        | none => v
      | none => Json.obj (fs.map fun kv => (kv.1, processData f t m kv.2))
    | Json.arr xs => Json.arr (xs.map (processData f t m))
    | _ => v

/-- Raw template store of the "simple with Overrides" scenario (spec
section 8): `Address` and a `User` whose `Address` field references it
with a `Zip` override. -/
def simpleTplStore : List (String × Json) :=
  [("User", Json.obj
      [("Name", Json.str "Snow"),
       ("Address", Json.obj
          [("@DATA:TEMPLATE@", Json.str "Address"),
           ("@OVERRIDES@", Json.obj [("Zip", Json.str "524003")])])]),
   ("Address", Json.obj [("Street", Json.str "Main"), ("Zip", Json.str "524004")])]

example :
    (simpleTplStore.map fun kv => (kv.1, normTplValue 6 simpleTplStore kv.2)) =
    [("User", Json.obj
        [("Name", Json.str "Snow"),
         ("Address", Json.obj [("Street", Json.str "Main"), ("Zip", Json.str "524003")])]),
     ("Address", Json.obj [("Street", Json.str "Main"), ("Zip", Json.str "524004")])] := rfl

/-- Raw map store of the chained-indirection scenario (spec section 8):
`Defaults.Address[Type=Home]` matches an element whose `Castle` field is
itself a Map Reference to `Defaults.Castle`. -/
def castleMapStore : List (String × Json) :=
  [("User", Json.obj
      [("Name", Json.str "@DATA:MAP::Defaults.User.Name@"),
       ("Age", Json.str "@DATA:MAP::Defaults.User.Age@"),
       ("Address", Json.str "@DATA:MAP::Defaults.Address[Type=Home]@")]),
   ("Defaults", Json.obj
      [("User", Json.obj [("Name", Json.str "Snow"), ("Age", Json.num 18)]),
       ("Address", Json.arr
          [Json.obj [("Type", Json.str "Home"),
                     ("Castle", Json.str "@DATA:MAP::Defaults.Castle@")],
           Json.obj [("Type", Json.str "Work"), ("Castle", Json.str "Castle Black")]]),
       ("Castle", Json.str "WinterFell")])]

example :
    processMapValue 8 castleMapStore (Json.str "@DATA:MAP::Defaults.Address[Type=Home]@") =
    Json.obj [("Type", Json.str "Home"), ("Castle", Json.str "WinterFell")] := rfl

example :
    (processMaps 8 { raw := castleMapStore, normalized := [], enabled := false,
                     processed := false }).normalized =
    [("User", Json.obj
        [("Name", Json.str "Snow"),
         ("Age", Json.num 18),
         ("Address", Json.obj [("Type", Json.str "Home"), ("Castle", Json.str "WinterFell")])]),
     ("Defaults", Json.obj
        [("User", Json.obj [("Name", Json.str "Snow"), ("Age", Json.num 18)]),
         ("Address", Json.arr
            [Json.obj [("Type", Json.str "Home"), ("Castle", Json.str "WinterFell")],
             Json.obj [("Type", Json.str "Work"), ("Castle", Json.str "Castle Black")]]),
         ("Castle", Json.str "WinterFell")])] := rfl

example :
    processData 5 [("User", Json.obj [("Name", Json.str "Snow")])] []
      (Json.obj [("@DATA:TEMPLATE@", Json.str "User"),
                 ("@OVERRIDES@", Json.obj
                    [("Name", Json.str "Stark"),
                     ("Address", Json.arr [Json.obj [("Street", Json.str "Kings Road")]])])]) =
    Json.obj [("Name", Json.str "Stark"),
              ("Address", Json.arr [Json.obj [("Street", Json.str "Kings Road")]])] := rfl

/-! ## Mock server route handler (src/src/models/server.js)

`registerAllRoutes` installs a catch-all route: the matching interaction
is first searched among the server's pact interactions, then — only when
that search fails — among the mock interactions; a found interaction has
its exercise counter updated and its `exercised` flag set before its
configured response is sent; otherwise the server answers 404
`Interaction Not Found` without touching any interaction.

`helper.getMatchingInteraction` and the `store` counter live outside this
snapshot's sources, so the handler is parameterized over the matching
function `gmi` and the counter update `upd` — every theorem below holds
for all of them. `willRespondWith` is modelled in its data form (status,
headers, optional body); the function-valued responder variant is not
exercised by the claims. -/

/-- The data form of `willRespondWith`: status, headers and optional body. -/
structure RespondWith : Type where
  status : Nat
  headers : List (String × String)
  body : Option Json

/-- One configured interaction: its id, whether it has been exercised,
and its configured response. -/
structure Interaction : Type where
  id : String
  exercised : Bool
  willRespondWith : RespondWith

/-- The HTTP response the catch-all route writes. -/
structure HttpResponse : Type where
  status : Nat
  headers : List (String × String)
  body : Option Json

/-- Mutable server state touched by the catch-all route: the two
interaction collections and the store's exercise counters. -/
structure MockServerState : Type where
  pactInteractions : List Interaction
  mockInteractions : List Interaction
  exerciseCounters : List (String × Nat)

/-- The response built from an interaction's `willRespondWith` data:
headers are set, the status is set, and the body is sent when present
(an empty send otherwise). -/
def respondFor (i : Interaction) : HttpResponse :=
  { status := i.willRespondWith.status
    headers := i.willRespondWith.headers
    body := i.willRespondWith.body }

/-- `interaction.exercised = true` on the matched object: the interaction
with the matched id is flagged within its collection. -/
def markExercised (matched : Interaction) (xs : List Interaction) : List Interaction :=
  xs.map fun x => if x.id = matched.id then { x with exercised := true } else x

/-- The 404 answer of the catch-all route when no interaction matches. -/
def notFoundResponse : HttpResponse :=
  { status := 404, headers := [], body := some (Json.str "Interaction Not Found") }

/-- The catch-all route of `registerAllRoutes`: search the pact
interactions first; only when no pact interaction matches, search the mock
interactions; a found interaction is exercised (counter update via `upd`,
`exercised := true`) and answered with its configured response; with no
match the state is untouched and the answer is the 404 response. -/
def handleRequest {Req : Type}
    (gmi : Req → List Interaction → Option Interaction)
    (upd : String → List (String × Nat) → List (String × Nat))
    (st : MockServerState) (req : Req) : MockServerState × HttpResponse :=
  match gmi req st.pactInteractions with
  | some i =>
    ({ st with
        pactInteractions := markExercised i st.pactInteractions
        exerciseCounters := upd i.id st.exerciseCounters },
     respondFor i)
  | none =>
    match gmi req st.mockInteractions with
    | some i =>
      ({ st with
          mockInteractions := markExercised i st.mockInteractions
          exerciseCounters := upd i.id st.exerciseCounters },
       respondFor i)
    | none => (st, notFoundResponse)

/-! ## Theorems -/

/-- Claim C1: for each store kind, calling the normalizer while that
store's `processed` flag is true is a no-op on state — the whole state,
its normalized store included, is exactly as it stood before the call,
even if the normalized store had been externally mutated (the state is
arbitrary here, its stores need not be consistent with each other); the
no-op is decided purely by the flag. -/
theorem normalizer_noop_when_processed (fuel : Nat) (s : DPState)
    (h : s.processed = true) :
    processTemplates fuel s = s ∧ processMaps fuel s = s := by
  constructor <;> simp [processTemplates, processMaps, h]

/-- State whose normalized store disagrees with its raw store (an
"external mutation" survivor) and whose `processed` flag is set. -/
def mutatedProcessedState : DPState :=
  { raw := simpleTplStore
    normalized := [("Stale", Json.num 7)]
    enabled := false
    processed := true }

theorem normalizer_noop_when_processed_witness :
    mutatedProcessedState.processed = true ∧
    processTemplates 5 mutatedProcessedState = mutatedProcessedState ∧
    processMaps 5 mutatedProcessedState = mutatedProcessedState :=
  ⟨rfl, (normalizer_noop_when_processed 5 mutatedProcessedState rfl).1,
    (normalizer_noop_when_processed 5 mutatedProcessedState rfl).2⟩

/-- Claim C2: normalization never fails on a missing reference — a
Template Reference marker whose referenced name is absent from the store
is left in the output in its original marker form, a Map Reference string
whose path does not resolve is left unchanged, and every normalizer run
still completes with `processed = true`. -/
theorem missing_references_pass_through :
    (∀ (fuel : Nat) (store fs : List (String × Json)) (name : String),
       getTemplateName fs = some name → jlookup store name = none →
       normTplValue fuel store (Json.obj fs) = Json.obj fs) ∧
    (∀ (fuel : Nat) (store : List (String × Json)) (s p : String),
       getMapRefPath s = some p → resolveSteps (Json.obj store) (parsePath p) = none →
       processMapValue fuel store (Json.str s) = Json.str s) ∧
    (∀ (fuel : Nat) (st : DPState),
       (processTemplates fuel st).processed = true ∧
       (processMaps fuel st).processed = true) := by
  refine ⟨?_, ?_, ?_⟩
  · intro fuel store fs name h1 h2
    cases fuel with
    | zero => rfl
    | succ f => simp [normTplValue, h1, h2]
  · intro fuel store s p h1 h2
    cases fuel with
    | zero => rfl
    | succ f => simp [processMapValue, h1, h2]
  · intro fuel st
    refine ⟨?_, ?_⟩
    · unfold processTemplates; split <;> simp_all
    · unfold processMaps; split <;> simp_all

theorem missing_references_pass_through_witness :
    normTplValue 3 [] (Json.obj [("@DATA:TEMPLATE@", Json.str "Nope")]) =
      Json.obj [("@DATA:TEMPLATE@", Json.str "Nope")] ∧
    processMapValue 3 [] (Json.str "@DATA:MAP::Missing@") = Json.str "@DATA:MAP::Missing@" ∧
    (processTemplates 3
        { raw := [], normalized := [], enabled := false, processed := false }).processed
      = true :=
  ⟨missing_references_pass_through.1 3 [] _ "Nope" rfl rfl,
    missing_references_pass_through.2.1 3 [] "@DATA:MAP::Missing@" "Missing" rfl rfl,
    (missing_references_pass_through.2.2 3
      { raw := [], normalized := [], enabled := false, processed := false }).1⟩

/-- Claim C4: after an executed normalizer run (not short-circuited by
`processed`), the `processed` flag is true, `enabled` is true iff the raw
store was non-empty at the run, and an empty raw store yields the empty
normalized store. -/
theorem executed_run_flags (fuel : Nat) (s : DPState) (h : s.processed = false) :
    ((processTemplates fuel s).processed = true ∧
     ((processTemplates fuel s).enabled = true ↔ s.raw ≠ []) ∧
     (s.raw = [] → (processTemplates fuel s).normalized = [])) ∧
    ((processMaps fuel s).processed = true ∧
     ((processMaps fuel s).enabled = true ↔ s.raw ≠ []) ∧
     (s.raw = [] → (processMaps fuel s).normalized = [])) := by
  simp only [processTemplates, processMaps, h]
  cases hr : s.raw <;> simp [hr]

theorem executed_run_flags_witness :
    (processTemplates 2
        { raw := [], normalized := [("Stale", Json.num 1)],
          enabled := true, processed := false }).processed = true ∧
    (processMaps 2
        { raw := [], normalized := [("Stale", Json.num 1)],
          enabled := true, processed := false }).processed = true :=
  ⟨(executed_run_flags 2
      { raw := [], normalized := [("Stale", Json.num 1)],
        enabled := true, processed := false } rfl).1.1,
    (executed_run_flags 2
      { raw := [], normalized := [("Stale", Json.num 1)],
        enabled := true, processed := false } rfl).2.1⟩

/-- Lookup distributes over list append, preferring the left part. -/
theorem jlookup_append (xs ys : List (String × Json)) (k : String) :
    jlookup (xs ++ ys) k =
      match jlookup xs k with
      | some v => some v
      | none => jlookup ys k := by
  induction xs with
  | nil => rfl
  | cons kv rest ih =>
    by_cases h : kv.1 = k
    · simp [jlookup, h]
    · simpa [jlookup, h] using ih

/-- Lookup in the overwritten copy of the base: present base fields keep
their key and take the override's value when one exists. -/
theorem jlookup_map_override (bs os : List (String × Json)) (k : String) :
    jlookup
        (bs.map fun kv =>
          match jlookup os kv.1 with
          | some w => (kv.1, w)
          | none => kv) k
      = match jlookup bs k with
        | some v => some ((jlookup os k).getD v)
        | none => none := by
  induction bs with
  | nil => rfl
  | cons kv rest ih =>
    by_cases h : kv.1 = k
    · cases ho : jlookup os kv.1 <;> simp_all [jlookup]
    · cases ho : jlookup os kv.1 <;> simp_all [jlookup]

/-- When a key is absent from the base, filtering the overrides down to
base-absent keys does not change that key's lookup. -/
theorem jlookup_filter_of_none (bs os : List (String × Json)) (k : String)
    (h : jlookup bs k = none) :
    jlookup (os.filter fun kv => (jlookup bs kv.1).isNone) k = jlookup os k := by
  induction os with
  | nil => rfl
  | cons kv rest ih =>
    by_cases hk : kv.1 = k
    · have hnb : (jlookup bs kv.1).isNone = true := by rw [hk, h]; rfl
      have hfc : List.filter (fun kv => (jlookup bs kv.1).isNone) (kv :: rest)
          = kv :: List.filter (fun kv => (jlookup bs kv.1).isNone) rest := by
        simp [List.filter_cons, hnb]
      rw [hfc]
      simp [jlookup, hk]
    · cases hp : (jlookup bs kv.1).isNone <;> simp [List.filter_cons, hp, jlookup, hk, ih]

/-- Per-field law of the flat merge: a field present in the overrides
takes the override's value as-is; any other field keeps the base's value. -/
theorem jlookup_mergeFields (bs os : List (String × Json)) (k : String) :
    jlookup (mergeFields bs os) k =
      match jlookup os k with
      | some w => some w
      | none => jlookup bs k := by
  unfold mergeFields
  rw [jlookup_append, jlookup_map_override]
  cases hb : jlookup bs k with
  | some v => cases ho : jlookup os k <;> simp [hb, ho]
  | none =>
    rw [jlookup_filter_of_none bs os k hb]
    cases ho : jlookup os k <;> simp [hb, ho]

/-- Claim C3: Override Merge returns the resolved base unchanged when the
overrides are absent; otherwise it yields the one-level overwritten copy
`mergeFields`, in which every field present in the overrides takes the
override's value as-is (so nested override structures replace the base's
wholesale) and, in particular, a field explicitly set to null stays
present with value null — distinguishable from an absent field. -/
theorem overrideMerge_flat_overwrite :
    (∀ r : Json, mergeOverrides r none = r) ∧
    (∀ bs os : List (String × Json),
       mergeOverrides (Json.obj bs) (some (Json.obj os)) = Json.obj (mergeFields bs os)) ∧
    (∀ (bs os : List (String × Json)) (k : String),
       jlookup (mergeFields bs os) k =
         match jlookup os k with
         | some w => some w
         | none => jlookup bs k) ∧
    (∀ (bs os : List (String × Json)) (k : String),
       jlookup os k = some Json.null →
       jlookup (mergeFields bs os) k = some Json.null) := by
  refine ⟨fun r => rfl, fun bs os => rfl, jlookup_mergeFields, ?_⟩
  intro bs os k h
  rw [jlookup_mergeFields, h]

theorem overrideMerge_flat_overwrite_witness :
    jlookup (mergeFields [("Zip", Json.str "524004"), ("Street", Json.str "Main")]
        [("Zip", Json.null)]) "Zip" = some Json.null :=
  overrideMerge_flat_overwrite.2.2.2 [("Zip", Json.str "524004"), ("Street", Json.str "Main")]
    [("Zip", Json.null)] "Zip" rfl

/-- Claim C5: `processData` is the identity on null and on every string
that is not exactly a Map Reference marker (the empty string and strings
merely containing a marker as a substring included); only a string that is
in its entirety a marker is replaced by the Path Resolver's result (and is
kept as the marker when the path does not resolve). -/
theorem processData_scalar_identity :
    (∀ (fuel : Nat) (t m : List (String × Json)),
       processData fuel t m Json.null = Json.null) ∧
    (∀ (fuel : Nat) (t m : List (String × Json)) (s : String),
       getMapRefPath s = none → processData fuel t m (Json.str s) = Json.str s) ∧
    (∀ (fuel : Nat) (t m : List (String × Json)) (s p : String),
       getMapRefPath s = some p →
       processData (fuel + 1) t m (Json.str s) =
         (resolvePath (fuel + 1) m p).getD (Json.str s)) := by
  refine ⟨?_, ?_, ?_⟩
  · intro fuel t m
    cases fuel <;> rfl
  · intro fuel t m s h
    cases fuel with
    | zero => rfl
    | succ f => simp [processData, h]
  · intro fuel t m s p h
    simp [processData, h]

theorem processData_scalar_identity_witness :
    processData 4 [] [] Json.null = Json.null ∧
    processData 4 [] [] (Json.str "") = Json.str "" ∧
    processData 4 [] [] (Json.str "Hello") = Json.str "Hello" ∧
    processData 4 [] [] (Json.str "xx@DATA:MAP::a@yy") = Json.str "xx@DATA:MAP::a@yy" ∧
    processData 4 [] [("a", Json.num 5)] (Json.str "@DATA:MAP::a@") = Json.num 5 :=
  ⟨processData_scalar_identity.1 4 [] [],
    processData_scalar_identity.2.1 4 [] [] "" rfl,
    processData_scalar_identity.2.1 4 [] [] "Hello" rfl,
    processData_scalar_identity.2.1 4 [] [] "xx@DATA:MAP::a@yy" rfl,
    (processData_scalar_identity.2.2 3 [] [("a", Json.num 5)] "@DATA:MAP::a@" "a" rfl).trans rfl⟩

/-- Claim C6: a filter segment `[key=value]` evaluated on an array yields
the FIRST element (in array order) whose field `key` equals `value` under
string/loose equality — one single element, every earlier element failing
the filter — and yields "not found" exactly when no element matches. -/
theorem filter_segment_first_match :
    (∀ (k lit : String) (xs : List Json),
       applyStep (Json.arr xs) (PathStep.filter k lit) = filterFirst k lit xs) ∧
    (∀ (k lit : String) (xs : List Json) (e : Json),
       filterFirst k lit xs = some e →
       ∃ i : Nat, i < xs.length ∧ xs.get? i = some e ∧ matchesFilter k lit e = true ∧
         ∀ j : Nat, j < i → ∀ e' : Json, xs.get? j = some e' →
           matchesFilter k lit e' = false) ∧
    (∀ (k lit : String) (xs : List Json),
       filterFirst k lit xs = none ↔ ∀ e ∈ xs, matchesFilter k lit e = false) := by
  refine ⟨fun k lit xs => rfl, ?_, ?_⟩
  · intro k lit xs
    induction xs with
    | nil => intro e h; exact absurd h (by simp [filterFirst])
    | cons x rest ih =>
      intro e h
      by_cases hx : matchesFilter k lit x = true
      · refine ⟨0, by simp, ?_, ?_, ?_⟩
        · simpa [filterFirst, hx] using h
        · have : x = e := by simpa [filterFirst, hx] using h
          rw [← this]; exact hx
        · intro j hj; omega
      · have hrest : filterFirst k lit rest = some e := by
          simpa [filterFirst, hx] using h
        obtain ⟨i, hi, hget, hm, hfirst⟩ := ih e hrest
        refine ⟨i + 1, by simpa using hi, by simpa using hget, hm, ?_⟩
        intro j hj e' hget'
        cases j with
        | zero =>
          have : x = e' := by simpa using hget'
          rw [← this]
          exact Bool.eq_false_iff.mpr hx
        | succ j' =>
          exact hfirst j' (by omega) e' (by simpa using hget')
  · intro k lit xs
    induction xs with
    | nil => simp [filterFirst]
    | cons x rest ih =>
      by_cases hx : matchesFilter k lit x = true
      · simp [filterFirst, hx]
      · simp [filterFirst, hx, ih, Bool.eq_false_iff.mpr hx]

theorem filter_segment_first_match_witness :
    ∃ i : Nat,
      i < ([Json.obj [("Type", Json.str "Home"), ("Castle", Json.str "A")],
            Json.obj [("Type", Json.str "Home"), ("Castle", Json.str "B")]] : List Json).length ∧
      ([Json.obj [("Type", Json.str "Home"), ("Castle", Json.str "A")],
        Json.obj [("Type", Json.str "Home"), ("Castle", Json.str "B")]] : List Json).get? i =
        some (Json.obj [("Type", Json.str "Home"), ("Castle", Json.str "A")]) ∧
      matchesFilter "Type" "Home" (Json.obj [("Type", Json.str "Home"), ("Castle", Json.str "A")])
        = true ∧
      ∀ j : Nat, j < i → ∀ e' : Json,
        ([Json.obj [("Type", Json.str "Home"), ("Castle", Json.str "A")],
          Json.obj [("Type", Json.str "Home"), ("Castle", Json.str "B")]] : List Json).get? j =
          some e' → matchesFilter "Type" "Home" e' = false :=
  filter_segment_first_match.2.1 "Type" "Home"
    [Json.obj [("Type", Json.str "Home"), ("Castle", Json.str "A")],
     Json.obj [("Type", Json.str "Home"), ("Castle", Json.str "B")]]
    (Json.obj [("Type", Json.str "Home"), ("Castle", Json.str "A")]) rfl

/-- Claim C7: when the Path Resolver's result for a path is itself a
string exactly matching the Map Reference pattern, that result is resolved
again before being returned; and, concretely, the map path
`Defaults.Address[Type=Home]` whose matched element's `Castle` field is
itself `"@DATA:MAP::Defaults.Castle@"` with `Defaults.Castle =
"WinterFell"` normalizes to `{Type: "Home", Castle: "WinterFell"}`. -/
theorem chained_indirection (f : Nat) (store : List (String × Json)) (p s p2 : String)
    (h1 : resolveSteps (Json.obj store) (parsePath p) = some (Json.str s))
    (h2 : getMapRefPath s = some p2) :
    resolvePath (f + 1) store p = resolvePath f store p2 ∧
    processMapValue 8 castleMapStore (Json.str "@DATA:MAP::Defaults.Address[Type=Home]@") =
      Json.obj [("Type", Json.str "Home"), ("Castle", Json.str "WinterFell")] := by
  refine ⟨?_, rfl⟩
  simp [resolvePath, h1, h2]

theorem chained_indirection_witness :
    resolvePath 3 [("A", Json.str "@DATA:MAP::B@"), ("B", Json.num 1)] "A" =
      resolvePath 2 [("A", Json.str "@DATA:MAP::B@"), ("B", Json.num 1)] "B" :=
  (chained_indirection 2 [("A", Json.str "@DATA:MAP::B@"), ("B", Json.num 1)]
    "A" "@DATA:MAP::B@" "B" rfl rfl).1

/-- Claim C9: the catch-all route searches the pact interactions first and
consults the mock interactions only when no pact interaction matches — so
whenever a pact interaction matches, the request is answered with that
pact interaction's response (whatever the mock collection holds), and the
mock branch runs exactly when the pact search fails. This holds for every
matching function `gmi` and counter update `upd`, the real ones living
outside these sources. -/
theorem pact_interactions_answer_first :
    (∀ (Req : Type) (gmi : Req → List Interaction → Option Interaction)
       (upd : String → List (String × Nat) → List (String × Nat))
       (st : MockServerState) (req : Req) (i : Interaction),
       gmi req st.pactInteractions = some i →
       handleRequest gmi upd st req =
         ({ st with
             pactInteractions := markExercised i st.pactInteractions
             exerciseCounters := upd i.id st.exerciseCounters },
          respondFor i)) ∧
    (∀ (Req : Type) (gmi : Req → List Interaction → Option Interaction)
       (upd : String → List (String × Nat) → List (String × Nat))
       (st : MockServerState) (req : Req) (j : Interaction),
       gmi req st.pactInteractions = none →
       gmi req st.mockInteractions = some j →
       handleRequest gmi upd st req =
         ({ st with
             mockInteractions := markExercised j st.mockInteractions
             exerciseCounters := upd j.id st.exerciseCounters },
          respondFor j)) := by
  constructor
  · intro Req gmi upd st req i h
    simp [handleRequest, h]
  · intro Req gmi upd st req j h1 h2
    simp [handleRequest, h1, h2]

/-- A pact interaction and a mock interaction with distinct responses. -/
def pactI : Interaction :=
  { id := "p1", exercised := false,
    willRespondWith := { status := 200, headers := [], body := some (Json.str "pact") } }

/-- The competing mock interaction of the witness scenario. -/
def mockI : Interaction :=
  { id := "m1", exercised := false,
    willRespondWith := { status := 201, headers := [], body := some (Json.str "mock") } }

/-- Server state in which the same request matches an interaction in BOTH
collections (the head-of-list matcher matches anything). -/
def bothMatchState : MockServerState :=
  { pactInteractions := [pactI], mockInteractions := [mockI], exerciseCounters := [] }

theorem pact_interactions_answer_first_witness :
    handleRequest (fun (_ : Unit) xs => xs.head?) (fun _ c => c) bothMatchState () =
      ({ pactInteractions := markExercised pactI [pactI],
         mockInteractions := [mockI],
         exerciseCounters := [] },
       respondFor pactI) :=
  pact_interactions_answer_first.1 Unit (fun _ xs => xs.head?) (fun _ c => c)
    bothMatchState () pactI rfl

/-- Claim C10: when no configured interaction — pact or mock — matches the
incoming request, the server answers HTTP 404 with body
`Interaction Not Found`, and the state is exactly unchanged: no
interaction is marked exercised and no exercise counter is updated. -/
theorem unmatched_request_yields_404 {Req : Type}
    (gmi : Req → List Interaction → Option Interaction)
    (upd : String → List (String × Nat) → List (String × Nat))
    (st : MockServerState) (req : Req)
    (h1 : gmi req st.pactInteractions = none)
    (h2 : gmi req st.mockInteractions = none) :
    handleRequest gmi upd st req = (st, notFoundResponse) ∧
    notFoundResponse.status = 404 ∧
    notFoundResponse.body = some (Json.str "Interaction Not Found") := by
  refine ⟨?_, rfl, rfl⟩
  simp [handleRequest, h1, h2]

theorem unmatched_request_yields_404_witness :
    handleRequest (fun (_ : Unit) _ => (none : Option Interaction)) (fun _ c => c)
        bothMatchState () = (bothMatchState, notFoundResponse) :=
  (unmatched_request_yields_404 (fun _ _ => none) (fun _ c => c) bothMatchState ()
    rfl rfl).1
